import Mathlib

/-!
Verification of the chunked S3 download engine (`s3_download.py`).

The Python source is shallowly embedded below.  Byte payloads are `List Nat`;
the object store (boto3 client) is an abstract `Store` whose three operations
return `Except` values; the thread pool's nondeterministic completion order is
an explicit permutation parameter `order`; the local filesystem is modelled as
the content of the single destination path, `Option Bytes` (`none` = absent).
Python's floor division `//` is `Int.fdiv`, with an explicit branch for its
`ZeroDivisionError`; `ThreadPoolExecutor` raising `ValueError` on a
non-positive `max_workers` is an explicit branch as well.

Exception routing is modelled exactly as in the source: a `ClientError` is
handled by the first `except` clause, which raises a fresh exception that the
following `except Exception` clause does NOT catch, so no cleanup runs on that
path; every other exception reaches the generic handler, which removes the
file at the destination path if one exists and re-raises.
-/

namespace S3Download

/-- Byte strings are lists of byte values. -/
abbrev Bytes := List Nat

/-- Exceptions that cross the engine boundary: a botocore `ClientError`
carrying its response error code, or any other Python exception. -/
inductive PyErr where
  | clientError (code : String)
  | otherExc
deriving DecidableEq, Repr

/-- Abstract S3 client: `head_object` (returns `ContentLength`),
`get_object` with an inclusive byte `Range`, and `download_file`
(whole-object fetch used in direct mode).  `download_file` is an external
boto3 collaborator; per its contract a failed direct fetch leaves no
partial file at the destination path, so on failure the filesystem cell is
unchanged. -/
structure Store where
  head : Except PyErr Nat
  getRange : Int → Int → Except PyErr Bytes
  getWhole : Except PyErr Bytes

/-- Terminal outcome of `download_from_s3`: normal return, or one of the
exceptions the function raises (missing bucket, the not-found message, the
generic S3-error message, or the generic failure message). -/
inductive DlResult where
  | bucketMissing
  | notFoundErr
  | s3Error
  | downloadFailed
  | success
deriving DecidableEq, Repr

/-- Observable outcome of one `download_from_s3` call: result, Python return
value, final content of the destination path, and counters for network
operations and the worker pool (`workersSpawned = some w` iff a
`ThreadPoolExecutor` was constructed, with `max_workers = w`). -/
structure DlOutcome where
  result : DlResult
  retval : Option String
  fs : Option Bytes
  headCalls : Nat
  rangedFetches : Nat
  directFetches : Nat
  workersSpawned : Option Int
deriving DecidableEq, Repr

/-- Line 60: `chunk_size = chunk_size_mb * 1024 * 1024`. -/
def chunk_size_of_mb (chunk_size_mb : Int) : Int :=
  chunk_size_mb * 1024 * 1024

/-- Line 70: `num_chunks = (file_size + chunk_size - 1) // chunk_size`
(Python floor division). -/
def num_chunks (file_size chunk_size : Int) : Int :=
  Int.fdiv (file_size + chunk_size - 1) chunk_size

/-- Line 105: `start_byte = i * chunk_size`. -/
def start_byte (chunk_size : Int) (i : Nat) : Int :=
  (i : Int) * chunk_size

/-- Line 106: `end_byte = min(start_byte + chunk_size - 1, file_size - 1)`. -/
def end_byte (file_size chunk_size : Int) (i : Nat) : Int :=
  min (start_byte chunk_size i + chunk_size - 1) (file_size - 1)

/-- Lines 79-99: one worker's ranged `get_object` for chunk `i`. -/
def download_chunk (store : Store) (file_size chunk_size : Int) (i : Nat) :
    Except PyErr Bytes :=
  store.getRange (start_byte chunk_size i) (end_byte file_size chunk_size i)

/-- Lines 111-113: the main thread's `for future in futures: future.result()`
loop surfaces the exception of the first failed future in submission order. -/
def first_chunk_error (store : Store) (file_size chunk_size : Int) (n : Nat) :
    Option PyErr :=
  (List.range n).findSome? fun i =>
    match download_chunk store file_size chunk_size i with
    | .error e => some e
    | .ok _ => none

/-- Lines 91-92: each successfully completed worker appends
`(chunk_num, data)` to `parts` under the lock, in completion order
(`order`); failed workers append nothing. -/
def collect_parts (store : Store) (file_size chunk_size : Int)
    (order : List Nat) : List (Nat × Bytes) :=
  order.filterMap fun i =>
    match download_chunk store file_size chunk_size i with
    | .ok d => some (i, d)
    | .error _ => none

/-- Ordering used by line 116, `parts.sort(key=lambda x: x[0])`. -/
def keyLE (a b : Nat × Bytes) : Prop := a.1 ≤ b.1

instance : DecidableRel keyLE := fun a b => Nat.decLe a.1 b.1

instance : IsTotal (Nat × Bytes) keyLE := ⟨fun a b => Nat.le_total a.1 b.1⟩

instance : IsTrans (Nat × Bytes) keyLE := ⟨fun _ _ _ => Nat.le_trans⟩

/-- Line 116: sort the collected parts by chunk index. -/
def sortParts (l : List (Nat × Bytes)) : List (Nat × Bytes) :=
  List.insertionSort keyLE l

/-- Lines 119-121: the file content produced by writing each part's payload
in the sorted order. -/
def assemble (parts : List (Nat × Bytes)) : Bytes :=
  ((sortParts parts).map Prod.snd).flatten

/-- Lines 125-136: the two `except` clauses.  A `ClientError` raises the
not-found or S3-error message without touching the filesystem (the exception
raised inside the first handler is not caught by the second); any other
exception removes the destination file if present and raises the generic
failure message. -/
def handle_error (e : PyErr) (fs : Option Bytes) : DlResult × Option Bytes :=
  match e with
  | .clientError code => if code = "404" then (.notFoundErr, fs) else (.s3Error, fs)
  | .otherExc => (.downloadFailed, none)

/-- Lines 17-136: the whole download.  `bucketSet` models the
`RUNPOD_S3_BUCKET` truthiness check, `order` the completion order of the
worker pool, `writeFailAfter` an injected `OSError` during the write loop
(after that many parts were written), and `fs0` the initial content of the
destination path. -/
def download_from_s3 (bucketSet : Bool) (store : Store) (order : List Nat)
    (writeFailAfter : Option Nat) (fs0 : Option Bytes)
    (num_workers : Int) (chunk_size_mb : Int) : DlOutcome :=
  if bucketSet = false then
    ⟨.bucketMissing, none, fs0, 0, 0, 0, none⟩
  else
    match store.head with
    | .error e =>
        ⟨(handle_error e fs0).1, none, (handle_error e fs0).2, 1, 0, 0, none⟩
    | .ok file_size =>
        if (file_size : Int) < chunk_size_of_mb chunk_size_mb then
          match store.getWhole with
          | .ok data => ⟨.success, none, some data, 1, 0, 1, none⟩
          | .error e =>
              ⟨(handle_error e fs0).1, none, (handle_error e fs0).2, 1, 0, 1, none⟩
        else if chunk_size_of_mb chunk_size_mb = 0 then
          ⟨.downloadFailed, none, none, 1, 0, 0, none⟩
        else if min num_workers
            (num_chunks (file_size : Int) (chunk_size_of_mb chunk_size_mb)) ≤ 0 then
          ⟨.downloadFailed, none, none, 1, 0, 0, none⟩
        else
          match first_chunk_error store (file_size : Int) (chunk_size_of_mb chunk_size_mb)
              (num_chunks (file_size : Int) (chunk_size_of_mb chunk_size_mb)).toNat with
          | some e =>
              ⟨(handle_error e fs0).1, none, (handle_error e fs0).2, 1,
                (num_chunks (file_size : Int) (chunk_size_of_mb chunk_size_mb)).toNat, 0,
                some (min num_workers
                  (num_chunks (file_size : Int) (chunk_size_of_mb chunk_size_mb)))⟩
          | none =>
              match writeFailAfter with
              | some _ =>
                  ⟨.downloadFailed, none, none, 1,
                    (num_chunks (file_size : Int) (chunk_size_of_mb chunk_size_mb)).toNat, 0,
                    some (min num_workers
                      (num_chunks (file_size : Int) (chunk_size_of_mb chunk_size_mb)))⟩
              | none =>
                  ⟨.success, none,
                    some (assemble (collect_parts store (file_size : Int)
                      (chunk_size_of_mb chunk_size_mb) order)),
                    1, (num_chunks (file_size : Int) (chunk_size_of_mb chunk_size_mb)).toNat, 0,
                    some (min num_workers
                      (num_chunks (file_size : Int) (chunk_size_of_mb chunk_size_mb)))⟩

/-- The exact inclusive byte range `[s, e]` of an object, as an ideal S3
ranged `get_object` returns it. -/
def sliceBytes (obj : Bytes) (s e : Int) : Bytes :=
  (obj.drop s.toNat).take (e - s + 1).toNat

/-- A store backed by a concrete object whose three operations all behave
ideally. -/
def idealStore (obj : Bytes) : Store :=
  ⟨.ok obj.length, fun s e => .ok (sliceBytes obj s e), .ok obj⟩

/-- Line 42: `os.path.basename(s3_key)`. -/
def basename (s : String) : String :=
  (s.splitOn "/").getLastD ""

/-- Line 43: `os.path.join(destination_folder, filename)`. -/
def path_join (a b : String) : String :=
  if b.startsWith "/" then b
  else if a = "" then b
  else if a.endsWith "/" then a ++ b
  else a ++ "/" ++ b

/-- The destination path of a download. -/
def destination_path (destination_folder s3_key : String) : String :=
  path_join destination_folder (basename s3_key)

/-- Strict version of the sort key ordering. -/
def keyLT (a b : Nat × Bytes) : Prop := a.1 < b.1

instance : IsAntisymm (Nat × Bytes) keyLT :=
  ⟨fun _ _ h h2 => absurd h2 (Nat.lt_asymm h)⟩

/-- The canonical fully collected parts list: one entry per chunk index, in
index order. -/
def canonParts (n : Nat) (g : Nat → Bytes) : List (Nat × Bytes) :=
  (List.range n).map fun i => (i, g i)

/-- Payload a successfully completed worker stored for chunk `i` (junk value
if that fetch failed). -/
def chunk_data (store : Store) (file_size chunk_size : Int) (i : Nat) : Bytes :=
  match download_chunk store file_size chunk_size i with
  | .ok d => d
  | .error _ => []

/-- Test fixture: a 200 MiB object whose ranged gets all succeed. -/
def storeAllOk : Store :=
  ⟨.ok (200 * 1048576), fun _ _ => .ok [5], .ok []⟩

/-- Test fixture: a 200 MiB object whose second chunk (start byte 67108864)
fails with an S3 `ClientError`. -/
def storeChunkClientError : Store :=
  ⟨.ok (200 * 1048576),
    fun s _ => if s = 67108864 then .error (.clientError "403") else .ok [1], .ok []⟩

/-- Test fixture: a 200 MiB object whose first chunk fails with a
non-`ClientError` exception. -/
def storeChunkOtherError : Store :=
  ⟨.ok (200 * 1048576),
    fun s _ => if s = 0 then .error .otherExc else .ok [1], .ok []⟩

/-- Test fixture: the size lookup fails with a non-404 `ClientError`. -/
def storeHeadServerError : Store :=
  ⟨.error (.clientError "500"), fun _ _ => .ok [], .ok []⟩

/-- Test fixture: the size lookup reports the key does not exist. -/
def storeHead404 : Store :=
  ⟨.error (.clientError "404"), fun _ _ => .ok [], .ok []⟩

/-- Test fixture: a 100-byte object. -/
def storeSmall100 : Store :=
  ⟨.ok 100, fun _ _ => .ok [], .ok []⟩

/-- Test fixture: a zero-byte object. -/
def storeEmpty : Store :=
  ⟨.ok 0, fun _ _ => .ok [], .ok []⟩

theorem num_chunks_bounds (total cs : Int) (h0 : 0 < cs) (h1 : cs ≤ total) :
    0 < num_chunks total cs ∧ total ≤ num_chunks total cs * cs ∧
      (num_chunks total cs - 1) * cs < total := by
  have key : cs * Int.fdiv (total + cs - 1) cs + Int.fmod (total + cs - 1) cs
      = total + cs - 1 := Int.fdiv_add_fmod _ _
  have hr0 : 0 ≤ Int.fmod (total + cs - 1) cs := Int.fmod_nonneg' _ h0
  have hr1 : Int.fmod (total + cs - 1) cs < cs := Int.fmod_lt_of_pos _ h0
  unfold num_chunks
  set n := Int.fdiv (total + cs - 1) cs with hn
  have hmul : (n - 1) * cs = cs * n - cs := by ring
  have hmul2 : n * cs = cs * n := by ring
  have h2 : total ≤ n * cs := by rw [hmul2]; linarith
  refine ⟨?_, h2, by rw [hmul]; linarith⟩
  by_contra hneg
  push_neg at hneg
  have : cs * n ≤ 0 := mul_nonpos_of_nonneg_of_nonpos h0.le hneg
  linarith

theorem end_byte_eq (total cs : Int) (i : Nat) :
    end_byte total cs i = min (((i : Int) + 1) * cs) total - 1 := by
  unfold end_byte start_byte
  have h : ((i : Int) + 1) * cs = (i : Int) * cs + cs := by ring
  rw [h]
  generalize (i : Int) * cs = X
  omega

/-- C1: for every `totalSizeBytes >= chunkSizeBytes > 0` the chunk plan has
exactly `ceil(total / chunkSize)` chunks (characterised by
`total <= n * cs` and `(n - 1) * cs < total`), chunk `i` covers the
inclusive range `[i * cs, min((i + 1) * cs, total) - 1]`, consecutive chunks
are adjacent, the first starts at byte 0, the last ends at `total - 1`,
no chunk is empty or longer than the chunk size, and the chunk lengths sum
to `total`. -/
theorem chunk_plan_partition (total cs : Int) (h0 : 0 < cs) (h1 : cs ≤ total) :
    0 < num_chunks total cs ∧
    total ≤ num_chunks total cs * cs ∧
    (num_chunks total cs - 1) * cs < total ∧
    start_byte cs 0 = 0 ∧
    (∀ i : Nat, (i : Int) < num_chunks total cs →
      end_byte total cs i = min (((i : Int) + 1) * cs) total - 1) ∧
    (∀ i : Nat, (i : Int) + 1 < num_chunks total cs →
      end_byte total cs i + 1 = start_byte cs (i + 1)) ∧
    end_byte total cs ((num_chunks total cs).toNat - 1) = total - 1 ∧
    (∀ i : Nat, (i : Int) < num_chunks total cs →
      start_byte cs i ≤ end_byte total cs i ∧
      end_byte total cs i - start_byte cs i + 1 ≤ cs) ∧
    (∑ i in Finset.range (num_chunks total cs).toNat,
      (end_byte total cs i - start_byte cs i + 1)) = total := by
  obtain ⟨hpos, hub, hlb⟩ := num_chunks_bounds total cs h0 h1
  set n := num_chunks total cs with hn
  have hstep : ∀ i : Nat, (i : Int) < n → (i : Int) * cs < total := by
    intro i hi
    have hi1 : (i : Int) ≤ n - 1 := by omega
    have := mul_le_mul_of_nonneg_right hi1 h0.le
    calc (i : Int) * cs ≤ (n - 1) * cs := this
    _ < total := hlb
  refine ⟨hpos, hub, hlb, by simp [start_byte], fun i _ => end_byte_eq total cs i, ?_, ?_, ?_, ?_⟩
  · -- adjacency of consecutive chunks
    intro i hi
    have hfit : ((i : Int) + 1) * cs ≤ total := by
      have hi1 : (i : Int) + 1 ≤ n - 1 := by omega
      have h2 := mul_le_mul_of_nonneg_right hi1 h0.le
      linarith
    rw [end_byte_eq total cs i]
    unfold start_byte
    push_cast
    have : min (((i : Int) + 1) * cs) total = ((i : Int) + 1) * cs := min_eq_left hfit
    rw [this]; ring
  · -- last chunk ends at the final byte
    have hc : ((n.toNat - 1 : Nat) : Int) = n - 1 := by omega
    rw [end_byte_eq total cs (n.toNat - 1), hc]
    have : (n - 1 + 1) * cs = n * cs := by ring
    rw [this]
    have : min (n * cs) total = total := min_eq_right hub
    rw [this]
  · -- every chunk is nonempty and no longer than the chunk size
    intro i hi
    rw [end_byte_eq total cs i]
    have h2 := hstep i hi
    have h3 : ((i : Int) + 1) * cs = (i : Int) * cs + cs := by ring
    unfold start_byte
    rw [h3]
    constructor
    · have := min_le_min (le_refl ((i : Int) * cs + cs)) (le_refl total)
      omega
    · omega
  · -- sum of lengths telescopes to the total size
    have hterm : ∀ i ∈ Finset.range n.toNat,
        end_byte total cs i - start_byte cs i + 1 =
          (fun j : Nat => min ((j : Int) * cs) total) (i + 1) -
          (fun j : Nat => min ((j : Int) * cs) total) i := by
      intro i hi
      show end_byte total cs i - start_byte cs i + 1 =
        min (((i + 1 : Nat) : Int) * cs) total - min (((i : Nat) : Int) * cs) total
      have hi2 : (i : Int) < n := by
        have := Finset.mem_range.mp hi
        omega
      rw [end_byte_eq total cs i]
      have h2 := hstep i hi2
      have h3 : min (((i : Nat) : Int) * cs) total = (i : Int) * cs := min_eq_left h2.le
      have h4 : (((i + 1 : Nat)) : Int) = (i : Int) + 1 := by push_cast; ring
      rw [h3, h4]
      unfold start_byte
      have h5 : ((i : Int) + 1) * cs = (i : Int) * cs + cs := by ring
      rw [h5]
      generalize (i : Int) * cs = X
      omega
    rw [Finset.sum_congr rfl hterm,
      Finset.sum_range_sub (fun j : Nat => min ((j : Int) * cs) total) n.toNat]
    show min ((n.toNat : Int) * cs) total - min (((0 : Nat) : Int) * cs) total = total
    have h5 : ((n.toNat : Nat) : Int) = n := by omega
    rw [h5]
    have h6 : min (n * cs) total = total := min_eq_right hub
    rw [h6]
    have h7 : (((0 : Nat) : Int)) * cs = 0 := by push_cast; ring
    rw [h7]
    have h8 : min (0 : Int) total = 0 := min_eq_left (by linarith)
    rw [h8]
    ring

theorem filterMap_some_eq_map (g : Nat → Nat × Bytes) (l : List Nat) :
    l.filterMap (fun i => some (g i)) = l.map g := by
  induction l with
  | nil => rfl
  | cons a l ih => simp [List.filterMap_cons, ih]

theorem sortParts_of_perm_canon (n : Nat) (g : Nat → Bytes)
    (l : List (Nat × Bytes)) (hp : l.Perm (canonParts n g)) :
    sortParts l = canonParts n g := by
  have hperm : sortParts l |>.Perm (canonParts n g) :=
    (List.perm_insertionSort keyLE l).trans hp
  have hsortedLE : List.Sorted keyLE (sortParts l) :=
    List.sorted_insertionSort keyLE l
  have hcanonLT : List.Sorted keyLT (canonParts n g) := by
    unfold canonParts List.Sorted
    rw [List.pairwise_map]
    exact List.pairwise_lt_range n
  have hnodupCanon : ((canonParts n g).map Prod.fst).Nodup := by
    unfold canonParts
    rw [List.map_map]
    have : (Prod.fst ∘ fun i : Nat => ((i, g i) : Nat × Bytes)) = id := rfl
    rw [this, List.map_id]
    exact List.nodup_range n
  have hnodup : ((sortParts l).map Prod.fst).Nodup :=
    hnodupCanon.perm (hperm.map Prod.fst).symm
  have hne : (sortParts l).Pairwise (fun a b : Nat × Bytes => a.1 ≠ b.1) := by
    rw [← List.pairwise_map]
    exact hnodup
  have hsortedLT : List.Sorted keyLT (sortParts l) := by
    unfold List.Sorted
    exact (hsortedLE.and hne).imp fun h => Nat.lt_of_le_of_ne h.1 h.2
  exact List.eq_of_perm_of_sorted hperm hsortedLT hcanonLT

theorem sliceBytes_chunk (obj : Bytes) (cs : Int) (h0 : 0 < cs) (i : Nat) :
    sliceBytes obj (start_byte cs i) (end_byte (obj.length : Int) cs i) =
      (obj.drop (i * cs.toNat)).take cs.toNat := by
  have hstart : start_byte cs i = ((i * cs.toNat : Nat) : Int) := by
    unfold start_byte
    push_cast [Int.toNat_of_nonneg h0.le]
    ring
  unfold sliceBytes
  rw [hstart, Int.toNat_ofNat, List.take_eq_take, end_byte_eq]
  have hlen : (List.drop (i * cs.toNat) obj).length = obj.length - i * cs.toNat :=
    List.length_drop _ _
  rw [hlen]
  have hmul : ((i : Int) + 1) * cs = ((i * cs.toNat : Nat) : Int) + cs := by
    push_cast [Int.toNat_of_nonneg h0.le]
    ring
  rw [hmul]
  omega

theorem flatten_chunks (cs : Nat) :
    ∀ (k : Nat) (obj : Bytes),
      ((List.range k).map fun i => (obj.drop (i * cs)).take cs).flatten =
        obj.take (k * cs) := by
  intro k
  induction k with
  | zero => intro obj; simp
  | succ k ih =>
      intro obj
      rw [List.range_succ, List.map_append, List.flatten_append]
      simp only [List.map_cons, List.map_nil, List.flatten_cons, List.flatten_nil,
        List.append_nil]
      rw [ih obj]
      have : (k + 1) * cs = k * cs + cs := by ring
      rw [this, List.take_add]

theorem handle_error_spec (e : PyErr) (fs0 : Option Bytes) :
    ((handle_error e fs0).1 = .downloadFailed → (handle_error e fs0).2 = none) ∧
    ((handle_error e fs0).1 = .notFoundErr ∨ (handle_error e fs0).1 = .s3Error →
      (handle_error e fs0).2 = fs0) ∧
    (handle_error e fs0).1 ≠ .success ∧
    (handle_error e fs0).1 ≠ .bucketMissing := by
  cases e with
  | clientError code => by_cases hc : code = "404" <;> simp [handle_error, hc]
  | otherExc => simp [handle_error]

theorem collect_parts_all_ok (store : Store) (fsz cs : Int) (order : List Nat) :
    (∀ i ∈ order, ∃ d, download_chunk store fsz cs i = .ok d) →
    collect_parts store fsz cs order =
      order.map fun i => (i, chunk_data store fsz cs i) := by
  induction order with
  | nil => intro _; rfl
  | cons a l ih =>
      intro h
      obtain ⟨d, hd⟩ := h a (List.mem_cons_self a l)
      have hca : chunk_data store fsz cs a = d := by
        unfold chunk_data
        rw [hd]
      unfold collect_parts
      simp only [List.filterMap_cons, List.map_cons, hd, hca]
      exact congrArg _ (ih fun i hi => h i (List.mem_cons_of_mem a hi))

/-- C2: for every successful chunked download against a store that returns the
exact requested byte ranges of the object, collecting the chunk results in any
completion order, sorting them by chunk index and concatenating the payloads
reproduces the remote object byte for byte — so the written file is invariant
under any permutation of completion order and equals a sequential download. -/
theorem reassembly_byte_identical (obj : Bytes) (chunk_size : Int)
    (order : List Nat) (h0 : 0 < chunk_size)
    (hle : chunk_size ≤ (obj.length : Int))
    (hord : order.Perm
      (List.range (num_chunks (obj.length : Int) chunk_size).toNat)) :
    assemble (collect_parts (idealStore obj) (obj.length : Int) chunk_size order)
      = obj := by
  obtain ⟨hpos, hub, _⟩ := num_chunks_bounds (obj.length : Int) chunk_size h0 hle
  set n : Nat := (num_chunks (obj.length : Int) chunk_size).toNat with hn
  have hcollect :
      collect_parts (idealStore obj) (obj.length : Int) chunk_size order =
        order.map fun i =>
          (i, sliceBytes obj (start_byte chunk_size i)
            (end_byte (obj.length : Int) chunk_size i)) := by
    unfold collect_parts download_chunk idealStore
    exact filterMap_some_eq_map _ order
  rw [hcollect]
  have hperm : (order.map fun i =>
      (i, sliceBytes obj (start_byte chunk_size i)
        (end_byte (obj.length : Int) chunk_size i))).Perm
      (canonParts n fun i =>
        sliceBytes obj (start_byte chunk_size i)
          (end_byte (obj.length : Int) chunk_size i)) :=
    hord.map _
  unfold assemble
  rw [sortParts_of_perm_canon _ _ _ hperm]
  unfold canonParts
  rw [List.map_map]
  have hsnd : (Prod.snd ∘ fun i : Nat =>
      ((i, sliceBytes obj (start_byte chunk_size i)
        (end_byte (obj.length : Int) chunk_size i)) : Nat × Bytes)) =
      fun i : Nat => sliceBytes obj (start_byte chunk_size i)
        (end_byte (obj.length : Int) chunk_size i) := rfl
  rw [hsnd]
  have hmapeq : (List.range n).map
      (fun i : Nat => sliceBytes obj (start_byte chunk_size i)
        (end_byte (obj.length : Int) chunk_size i)) =
      (List.range n).map
        (fun i : Nat => (obj.drop (i * chunk_size.toNat)).take chunk_size.toNat) :=
    List.map_congr_left fun i _ => sliceBytes_chunk obj chunk_size h0 i
  rw [hmapeq, flatten_chunks chunk_size.toNat n obj]
  have hlen : obj.length ≤ n * chunk_size.toNat := by
    have hcast : ((n * chunk_size.toNat : Nat) : Int) =
        num_chunks (obj.length : Int) chunk_size * chunk_size := by
      push_cast [Int.toNat_of_nonneg h0.le]
      rw [hn]
      push_cast [Int.toNat_of_nonneg hpos.le]
      ring
    have := hub
    omega
  exact List.take_of_length_le hlen

/-- C3 (amended): cleanup runs only in the generic exception handler — every
download that fails with the generic failure ends with no file at the
destination path, while a download that fails through the `ClientError`
handler (not-found or other S3 error) leaves the destination path exactly as
it was before the call. -/
theorem cleanup_on_generic_failure (bs : Bool) (store : Store) (order : List Nat)
    (wfa : Option Nat) (fs0 : Option Bytes) (nw mb : Int) :
    ((download_from_s3 bs store order wfa fs0 nw mb).result = .downloadFailed →
      (download_from_s3 bs store order wfa fs0 nw mb).fs = none) ∧
    ((download_from_s3 bs store order wfa fs0 nw mb).result = .notFoundErr ∨
        (download_from_s3 bs store order wfa fs0 nw mb).result = .s3Error →
      (download_from_s3 bs store order wfa fs0 nw mb).fs = fs0) := by
  unfold download_from_s3
  split
  · simp
  · split
    · next e _ =>
        obtain ⟨h1, h2, _, _⟩ := handle_error_spec e fs0
        exact ⟨h1, h2⟩
    · split
      · split
        · simp
        · next e _ =>
            obtain ⟨h1, h2, _, _⟩ := handle_error_spec e fs0
            exact ⟨h1, h2⟩
      · split
        · simp
        · split
          · simp
          · split
            · next e _ =>
                obtain ⟨h1, h2, _, _⟩ := handle_error_spec e fs0
                exact ⟨h1, h2⟩
            · split
              · simp
              · simp

/-- C4: when the object is smaller than the chunk size the engine performs
exactly one whole-object fetch, no ranged fetches, and no worker pool; if the
whole-object fetch succeeds the downloaded data (for a zero-byte object, an
empty file) lands at the destination and the call succeeds. -/
theorem direct_mode_single_fetch (store : Store) (order : List Nat)
    (wfa : Option Nat) (fs0 : Option Bytes) (nw mb : Int) (file_size : Nat)
    (hhead : store.head = .ok file_size)
    (hsmall : (file_size : Int) < chunk_size_of_mb mb) :
    (download_from_s3 true store order wfa fs0 nw mb).directFetches = 1 ∧
    (download_from_s3 true store order wfa fs0 nw mb).rangedFetches = 0 ∧
    (download_from_s3 true store order wfa fs0 nw mb).workersSpawned = none ∧
    (∀ data : Bytes, store.getWhole = .ok data →
      (download_from_s3 true store order wfa fs0 nw mb).result = .success ∧
      (download_from_s3 true store order wfa fs0 nw mb).fs = some data) := by
  cases hgw : store.getWhole with
  | ok data =>
      unfold download_from_s3
      rw [hhead, hgw]
      simp [hsmall]
  | error e =>
      unfold download_from_s3
      rw [hhead, hgw]
      simp [hsmall]

/-- C5: in chunked mode the worker pool is constructed with
`max_workers = min(requestedConcurrency, numChunks)` — never more workers
than chunks. -/
theorem worker_count_clamped (store : Store) (order : List Nat)
    (wfa : Option Nat) (fs0 : Option Bytes) (nw mb : Int) (file_size : Nat)
    (hhead : store.head = .ok file_size)
    (hcs : 0 < chunk_size_of_mb mb)
    (hbig : chunk_size_of_mb mb ≤ (file_size : Int))
    (hnw : 0 < nw) :
    (download_from_s3 true store order wfa fs0 nw mb).workersSpawned =
      some (min nw (num_chunks (file_size : Int) (chunk_size_of_mb mb))) := by
  obtain ⟨hncpos, _, _⟩ := num_chunks_bounds _ _ hcs hbig
  have hwpos : 0 < min nw (num_chunks (file_size : Int) (chunk_size_of_mb mb)) :=
    lt_min hnw hncpos
  unfold download_from_s3
  rw [hhead]
  simp only [show (true = false) = False from by simp, if_false,
    if_neg (not_lt.mpr hbig), if_neg hcs.ne', if_neg (not_le.mpr hwpos)]
  split
  · rfl
  · split
    · rfl
    · rfl

/-- C6 (amended): a chunk size of zero megabytes is not rejected up front —
the size lookup (network I/O) happens first, and the call then fails with the
generic download failure (the `ZeroDivisionError` of the chunk-count
computation reaches the generic handler, which also removes any file at the
destination path); no configuration error is ever raised for it. -/
theorem zero_chunk_size_fails_after_head (store : Store) (order : List Nat)
    (wfa : Option Nat) (fs0 : Option Bytes) (nw : Int) (file_size : Nat)
    (hhead : store.head = .ok file_size) :
    (download_from_s3 true store order wfa fs0 nw 0).result = .downloadFailed ∧
    (download_from_s3 true store order wfa fs0 nw 0).result ≠ .bucketMissing ∧
    (download_from_s3 true store order wfa fs0 nw 0).fs = none ∧
    (download_from_s3 true store order wfa fs0 nw 0).headCalls = 1 := by
  unfold download_from_s3 chunk_size_of_mb
  rw [hhead]
  norm_num [not_lt.mpr (Int.natCast_nonneg file_size)]
  decide

/-- C7: a `ClientError` from the size lookup surfaces as the not-found error
exactly when its code is 404 and as the generic S3 error otherwise — the two
are distinct constructors — and in both cases the destination path is
untouched and no ranged or whole-object fetch was attempted. -/
theorem head_client_error_mapping (store : Store) (order : List Nat)
    (wfa : Option Nat) (fs0 : Option Bytes) (nw mb : Int) (code : String)
    (hhead : store.head = .error (.clientError code)) :
    (download_from_s3 true store order wfa fs0 nw mb).result =
        (if code = "404" then DlResult.notFoundErr else DlResult.s3Error) ∧
    (download_from_s3 true store order wfa fs0 nw mb).fs = fs0 ∧
    (download_from_s3 true store order wfa fs0 nw mb).headCalls = 1 ∧
    (download_from_s3 true store order wfa fs0 nw mb).rangedFetches = 0 ∧
    (download_from_s3 true store order wfa fs0 nw mb).directFetches = 0 := by
  unfold download_from_s3
  rw [hhead]
  unfold handle_error
  by_cases hc : code = "404" <;> simp [hc]

/-- C8 (amended): `download_from_s3` returns `None` on every code path — in
particular a successful download does not return the destination file path to
its caller (the path is only printed). -/
theorem success_returns_none (bs : Bool) (store : Store) (order : List Nat)
    (wfa : Option Nat) (fs0 : Option Bytes) (nw mb : Int) :
    (download_from_s3 bs store order wfa fs0 nw mb).retval = none := by
  unfold download_from_s3
  split
  · rfl
  · split
    · rfl
    · split
      · split
        · rfl
        · rfl
      · split
        · rfl
        · split
          · rfl
          · split
            · rfl
            · split
              · rfl
              · rfl

/-- C9: in chunked mode, if any dispatched chunk fetch fails the download does
not succeed and, when no file pre-existed at the destination path, none exists
afterwards (nothing was written); and when every chunk fetch succeeds the
collected parts list has exactly `numChunks` entries whose indices are a
permutation of `0..numChunks-1` — a bijection with the chunk plan. -/
theorem write_only_after_all_chunks (store : Store) (order : List Nat)
    (wfa : Option Nat) (fs0 : Option Bytes) (nw mb : Int) (file_size : Nat)
    (hhead : store.head = .ok file_size)
    (hcs : 0 < chunk_size_of_mb mb)
    (hbig : chunk_size_of_mb mb ≤ (file_size : Int))
    (hnw : 0 < nw)
    (hord : order.Perm
      (List.range (num_chunks (file_size : Int) (chunk_size_of_mb mb)).toNat)) :
    ((∃ i : Nat, i < (num_chunks (file_size : Int) (chunk_size_of_mb mb)).toNat ∧
        ∃ e, download_chunk store (file_size : Int) (chunk_size_of_mb mb) i =
          .error e) →
      (download_from_s3 true store order wfa fs0 nw mb).result ≠ .success ∧
      (fs0 = none → (download_from_s3 true store order wfa fs0 nw mb).fs = none)) ∧
    (first_chunk_error store (file_size : Int) (chunk_size_of_mb mb)
        (num_chunks (file_size : Int) (chunk_size_of_mb mb)).toNat = none →
      (collect_parts store (file_size : Int) (chunk_size_of_mb mb) order).length =
        (num_chunks (file_size : Int) (chunk_size_of_mb mb)).toNat ∧
      ((collect_parts store (file_size : Int) (chunk_size_of_mb mb) order).map
        Prod.fst).Perm
        (List.range (num_chunks (file_size : Int) (chunk_size_of_mb mb)).toNat)) := by
  obtain ⟨hncpos, _, _⟩ := num_chunks_bounds _ _ hcs hbig
  constructor
  · rintro ⟨i, hin, e, he⟩
    cases hfc : first_chunk_error store (file_size : Int) (chunk_size_of_mb mb)
        (num_chunks (file_size : Int) (chunk_size_of_mb mb)).toNat with
    | none =>
        exfalso
        unfold first_chunk_error at hfc
        rw [List.findSome?_eq_none_iff] at hfc
        have := hfc i (List.mem_range.mpr hin)
        rw [he] at this
        simp at this
    | some e2 =>
        unfold download_from_s3
        rw [hhead]
        simp only [show (true = false) = False from by simp, if_false,
          if_neg (not_lt.mpr hbig), if_neg hcs.ne',
          if_neg (not_le.mpr (lt_min hnw hncpos))]
        rw [hfc]
        obtain ⟨h1, h2, h3, h4⟩ := handle_error_spec e2 fs0
        refine ⟨h3, fun hfs => ?_⟩
        subst hfs
        cases e2 with
        | clientError code => simp only [handle_error]; split <;> rfl
        | otherExc => rfl
  · intro hfc
    unfold first_chunk_error at hfc
    rw [List.findSome?_eq_none_iff] at hfc
    have hok : ∀ i ∈ order, ∃ d,
        download_chunk store (file_size : Int) (chunk_size_of_mb mb) i = .ok d := by
      intro i hi
      have hmem : i ∈ List.range
          (num_chunks (file_size : Int) (chunk_size_of_mb mb)).toNat :=
        (hord.mem_iff).mp hi
      have := hfc i hmem
      cases hdc : download_chunk store (file_size : Int) (chunk_size_of_mb mb) i with
      | ok d => exact ⟨d, rfl⟩
      | error e => rw [hdc] at this; simp at this
    rw [collect_parts_all_ok store (file_size : Int) (chunk_size_of_mb mb) order hok]
    constructor
    · rw [List.length_map, hord.length_eq, List.length_range]
    · rw [List.map_map]
      have : (Prod.fst ∘ fun i : Nat =>
          ((i, chunk_data store (file_size : Int) (chunk_size_of_mb mb) i) :
            Nat × Bytes)) = id := rfl
      rw [this, List.map_id]
      exact hord

/-- C10 (amended): when a chunked download fails through the generic exception
handler (here: the first failed future raised a non-`ClientError` exception),
the cleanup deletes whatever file currently exists at the destination path —
including a pre-existing file this invocation never wrote a byte to; failures
raised through the `ClientError` handler skip the cleanup entirely. -/
theorem generic_chunk_failure_deletes_file (store : Store) (order : List Nat)
    (wfa : Option Nat) (fs0 : Option Bytes) (nw mb : Int) (file_size : Nat)
    (hhead : store.head = .ok file_size)
    (hcs : 0 < chunk_size_of_mb mb)
    (hbig : chunk_size_of_mb mb ≤ (file_size : Int))
    (hnw : 0 < nw)
    (hfc : first_chunk_error store (file_size : Int) (chunk_size_of_mb mb)
      (num_chunks (file_size : Int) (chunk_size_of_mb mb)).toNat = some .otherExc) :
    (download_from_s3 true store order wfa fs0 nw mb).result = .downloadFailed ∧
    (download_from_s3 true store order wfa fs0 nw mb).fs = none := by
  obtain ⟨hncpos, _, _⟩ := num_chunks_bounds _ _ hcs hbig
  unfold download_from_s3
  rw [hhead]
  simp only [show (true = false) = False from by simp, if_false,
    if_neg (not_lt.mpr hbig), if_neg hcs.ne',
    if_neg (not_le.mpr (lt_min hnw hncpos))]
  rw [hfc]
  exact ⟨rfl, rfl⟩

/-- Counterexample to C3 as stated: a chunked download whose second chunk
fetch fails with a `ClientError` while a file pre-exists at the destination
path fails, yet a destination file still remains on disk afterwards (the
`ClientError` handler performs no cleanup). -/
theorem failed_download_leaves_file_cex :
    ¬ (((download_from_s3 true storeChunkClientError [3, 1, 0, 2] none
          (some [7]) 12 64).result ≠ DlResult.success) →
        (download_from_s3 true storeChunkClientError [3, 1, 0, 2] none
          (some [7]) 12 64).fs = none) := by decide

/-- Counterexample to C6 as stated: with chunk size 0 MB (chunkSizeBytes = 0)
the download performs the size lookup (network I/O happened: one head call)
and then fails with the generic failure, not with any configuration error. -/
theorem chunk_size_not_validated_cex :
    (download_from_s3 true storeSmall100 [] none none 12 0).headCalls = 1 ∧
    (download_from_s3 true storeSmall100 [] none none 12 0).result =
      DlResult.downloadFailed ∧
    (download_from_s3 true storeSmall100 [] none none 12 0).result ≠
      DlResult.bucketMissing := by decide

/-- Counterexample to C8 as stated: a successful download returns `None`, not
the destination file path. -/
theorem success_returns_no_path_cex :
    (download_from_s3 true (idealStore [1, 2, 3]) [] none none 12 64).result =
      DlResult.success ∧
    (download_from_s3 true (idealStore [1, 2, 3]) [] none none 12 64).retval ≠
      some (destination_path "/data" "models/ckpt.bin") := by decide

/-- Counterexample to C10 as stated: a download that fails (non-404
`ClientError` from the size lookup) with a pre-existing file at the
destination path does not delete it — the cleanup handler never ran. -/
theorem failed_download_preserves_file_cex :
    ¬ (((download_from_s3 true storeHeadServerError [] none
          (some [1]) 12 64).result ≠ DlResult.success) →
        (download_from_s3 true storeHeadServerError [] none
          (some [1]) 12 64).fs = none) := by decide

/-- Witness for C1 at `total = 10`, `chunkSize = 3`. -/
theorem chunk_plan_partition_witness :
    (0 : Int) < 3 ∧ (3 : Int) ≤ 10 ∧
    (0 < num_chunks 10 3 ∧
     (10 : Int) ≤ num_chunks 10 3 * 3 ∧
     (num_chunks 10 3 - 1) * 3 < 10 ∧
     start_byte 3 0 = 0 ∧
     (∀ i : Nat, (i : Int) < num_chunks 10 3 →
       end_byte 10 3 i = min (((i : Int) + 1) * 3) 10 - 1) ∧
     (∀ i : Nat, (i : Int) + 1 < num_chunks 10 3 →
       end_byte 10 3 i + 1 = start_byte 3 (i + 1)) ∧
     end_byte 10 3 ((num_chunks 10 3).toNat - 1) = 10 - 1 ∧
     (∀ i : Nat, (i : Int) < num_chunks 10 3 →
       start_byte 3 i ≤ end_byte 10 3 i ∧
       end_byte 10 3 i - start_byte 3 i + 1 ≤ 3) ∧
     (∑ i in Finset.range (num_chunks 10 3).toNat,
       (end_byte 10 3 i - start_byte 3 i + 1)) = 10) :=
  ⟨by decide, by decide, chunk_plan_partition 10 3 (by decide) (by decide)⟩

/-- Witness for C2: the 5-byte object split into chunks of 2 bytes,
collected in completion order `[2, 0, 1]`, reassembles to the object. -/
theorem reassembly_byte_identical_witness :
    (0 : Int) < 2 ∧
    (2 : Int) ≤ (([1, 2, 3, 4, 5] : Bytes).length : Int) ∧
    [2, 0, 1].Perm
      (List.range (num_chunks (([1, 2, 3, 4, 5] : Bytes).length : Int) 2).toNat) ∧
    assemble (collect_parts (idealStore [1, 2, 3, 4, 5])
      (([1, 2, 3, 4, 5] : Bytes).length : Int) 2 [2, 0, 1]) = [1, 2, 3, 4, 5] :=
  ⟨by decide, by decide, by decide,
    reassembly_byte_identical [1, 2, 3, 4, 5] 2 [2, 0, 1] (by decide) (by decide)
      (by decide)⟩

/-- Witness for C3 (amended): a generic chunk failure deletes the pre-existing
destination file, while a `ClientError` chunk failure leaves it in place. -/
theorem cleanup_on_generic_failure_witness :
    ((download_from_s3 true storeChunkOtherError [0, 1, 2, 3] none
        (some [9, 9]) 12 64).result = DlResult.downloadFailed ∧
      (download_from_s3 true storeChunkOtherError [0, 1, 2, 3] none
        (some [9, 9]) 12 64).fs = none) ∧
    ((download_from_s3 true storeChunkClientError [0, 1, 2, 3] none
        (some [7]) 12 64).result = DlResult.s3Error ∧
      (download_from_s3 true storeChunkClientError [0, 1, 2, 3] none
        (some [7]) 12 64).fs = some [7]) :=
  ⟨⟨by decide,
    (cleanup_on_generic_failure true storeChunkOtherError [0, 1, 2, 3] none
      (some [9, 9]) 12 64).1 (by decide)⟩,
   ⟨by decide,
    (cleanup_on_generic_failure true storeChunkClientError [0, 1, 2, 3] none
      (some [7]) 12 64).2 (Or.inr (by decide))⟩⟩

/-- Witness for C4 at the degenerate zero-byte object: direct mode, one whole
fetch, no workers, and a zero-byte destination file. -/
theorem direct_mode_single_fetch_witness :
    storeEmpty.head = Except.ok 0 ∧
    ((0 : Nat) : Int) < chunk_size_of_mb 64 ∧
    ((download_from_s3 true storeEmpty [] none none 12 64).directFetches = 1 ∧
     (download_from_s3 true storeEmpty [] none none 12 64).rangedFetches = 0 ∧
     (download_from_s3 true storeEmpty [] none none 12 64).workersSpawned = none ∧
     (∀ data : Bytes, storeEmpty.getWhole = .ok data →
       (download_from_s3 true storeEmpty [] none none 12 64).result = .success ∧
       (download_from_s3 true storeEmpty [] none none 12 64).fs = some data)) ∧
    (download_from_s3 true storeEmpty [] none none 12 64).fs = some [] :=
  ⟨rfl, by decide,
    direct_mode_single_fetch storeEmpty [] none none 12 64 0 rfl (by decide),
    by decide⟩

/-- Witness for C5: requesting 100 workers for a 200 MiB object with 64 MiB
chunks (4 chunks) spawns a pool of `min 100 4 = 4` workers. -/
theorem worker_count_clamped_witness :
    storeAllOk.head = Except.ok 209715200 ∧
    (0 : Int) < chunk_size_of_mb 64 ∧
    chunk_size_of_mb 64 ≤ ((209715200 : Nat) : Int) ∧
    (0 : Int) < 100 ∧
    (download_from_s3 true storeAllOk [0, 1, 2, 3] none none 100 64).workersSpawned =
      some (min 100 (num_chunks ((209715200 : Nat) : Int) (chunk_size_of_mb 64))) ∧
    min (100 : Int) (num_chunks ((209715200 : Nat) : Int) (chunk_size_of_mb 64)) = 4 :=
  ⟨rfl, by decide, by decide, by decide,
    worker_count_clamped storeAllOk [0, 1, 2, 3] none none 100 64 209715200
      rfl (by decide) (by decide) (by decide),
    by decide⟩

/-- Witness for C6 (amended) at a 100-byte object with chunk size 0 MB and a
pre-existing destination file. -/
theorem zero_chunk_size_fails_after_head_witness :
    storeSmall100.head = Except.ok 100 ∧
    ((download_from_s3 true storeSmall100 [] none (some [3]) 12 0).result =
        .downloadFailed ∧
     (download_from_s3 true storeSmall100 [] none (some [3]) 12 0).result ≠
        .bucketMissing ∧
     (download_from_s3 true storeSmall100 [] none (some [3]) 12 0).fs = none ∧
     (download_from_s3 true storeSmall100 [] none (some [3]) 12 0).headCalls = 1) :=
  ⟨rfl, zero_chunk_size_fails_after_head storeSmall100 [] none (some [3]) 12 100 rfl⟩

/-- Witness for C7 at a 404 `ClientError` from the size lookup. -/
theorem head_client_error_mapping_witness :
    storeHead404.head = Except.error (PyErr.clientError "404") ∧
    ((download_from_s3 true storeHead404 [] none (some [7]) 12 64).result =
        (if "404" = "404" then DlResult.notFoundErr else DlResult.s3Error) ∧
     (download_from_s3 true storeHead404 [] none (some [7]) 12 64).fs = some [7] ∧
     (download_from_s3 true storeHead404 [] none (some [7]) 12 64).headCalls = 1 ∧
     (download_from_s3 true storeHead404 [] none (some [7]) 12 64).rangedFetches = 0 ∧
     (download_from_s3 true storeHead404 [] none (some [7]) 12 64).directFetches = 0) :=
  ⟨rfl, head_client_error_mapping storeHead404 [] none (some [7]) 12 64 "404" rfl⟩

/-- Witness for C9: with all four chunks of a 200 MiB object succeeding the
collected parts are a bijection with the plan, and with the first chunk
failing (non-`ClientError`) the download does not succeed and writes nothing. -/
theorem write_only_after_all_chunks_witness :
    ((collect_parts storeAllOk ((209715200 : Nat) : Int) (chunk_size_of_mb 64)
        [2, 0, 1, 3]).length =
      (num_chunks ((209715200 : Nat) : Int) (chunk_size_of_mb 64)).toNat ∧
     ((collect_parts storeAllOk ((209715200 : Nat) : Int) (chunk_size_of_mb 64)
        [2, 0, 1, 3]).map Prod.fst).Perm
      (List.range (num_chunks ((209715200 : Nat) : Int) (chunk_size_of_mb 64)).toNat)) ∧
    ((download_from_s3 true storeChunkOtherError [2, 0, 1, 3] none none 12 64).result ≠
        DlResult.success ∧
     ((none : Option Bytes) = none →
       (download_from_s3 true storeChunkOtherError [2, 0, 1, 3] none none 12 64).fs =
         none)) :=
  ⟨(write_only_after_all_chunks storeAllOk [2, 0, 1, 3] none none 12 64 209715200
      rfl (by decide) (by decide) (by decide) (by decide)).2 rfl,
   (write_only_after_all_chunks storeChunkOtherError [2, 0, 1, 3] none none 12 64
      209715200 rfl (by decide) (by decide) (by decide) (by decide)).1
     ⟨0, by decide, PyErr.otherExc, rfl⟩⟩

/-- Witness for C10 (amended): a generic chunk failure deletes a pre-existing
destination file that this invocation never wrote. -/
theorem generic_chunk_failure_deletes_file_witness :
    first_chunk_error storeChunkOtherError ((209715200 : Nat) : Int)
      (chunk_size_of_mb 64)
      (num_chunks ((209715200 : Nat) : Int) (chunk_size_of_mb 64)).toNat =
      some PyErr.otherExc ∧
    ((download_from_s3 true storeChunkOtherError [1, 0, 3, 2] none
        (some [4, 4, 4]) 12 64).result = DlResult.downloadFailed ∧
     (download_from_s3 true storeChunkOtherError [1, 0, 3, 2] none
        (some [4, 4, 4]) 12 64).fs = none) :=
  ⟨rfl,
    generic_chunk_failure_deletes_file storeChunkOtherError [1, 0, 3, 2] none
      (some [4, 4, 4]) 12 64 209715200 rfl (by decide) (by decide)
      (by decide) rfl⟩

end S3Download
